import Mathlib

/-!
Shallow embedding of `vision_agent/lmm/lmm.py`: a thin client layer over two
remote LMM backends (a hosted LLaVA endpoint and the OpenAI vision-chat API),
plus tool-selector factories and a client factory.

Modelling conventions:
* JSON documents are the inductive `Json`; a Python dict parsed from a JSON
  response is a `List (String × Json)` (keys unique in practice; lookups take
  the first match, as a dict would).
* Python exceptions are the inductive `PyError`.  `ValueError(f"Request
  failed: {resp_json}")` is modelled as `PyError.requestFailed resp` carrying
  the response body that the f-string interpolates; likewise the log record is
  `LogEntry.requestFailed resp` / `LogEntry.decodeFailed raw` carrying exactly
  the data the corresponding `_LOGGER.error(f"...")` call formats.
* Network I/O (`requests.post` + `.json()`, and the OpenAI
  `chat.completions.create` + `choices[0].message.content` extraction) is a
  function parameter `net`; file I/O (`encode_image`, i.e. read + base64) is a
  function parameter `enc`.  A function that returns `.error e` without its
  result depending on `net` raised `e` before any network call.
* `json.loads` (Python stdlib, not code of this repository) is represented by
  its outcome: `none` for a `json.JSONDecodeError`, `some j` for a successful
  parse, passed alongside the raw response text.
-/

/-- A JSON value (no floats occur in the responses the claims concern). -/
inductive Json where
  | null
  | bool (b : Bool)
  | num (n : Int)
  | str (s : String)
  | arr (elems : List Json)
  | obj (fields : List (String × Json))

/-- Python exceptions raised by `lmm.py`.  `requestFailed body` stands for
`ValueError(f"Request failed: {resp_json}")` with `body` the interpolated
response; the remaining constructors carry the literal message or key. -/
inductive PyError where
  | valueError (msg : String)
  | keyError (key : String)
  | typeError
  | indexError
  | notImplementedError (msg : String)
  | requestFailed (body : List (String × Json))

/-- A `_LOGGER.error` record.  `requestFailed body` is
`f"Request failed: {resp_json}"`; `decodeFailed raw` is
`f"Failed to decode response: {raw}"` carrying the raw response text. -/
inductive LogEntry where
  | requestFailed (body : List (String × Json))
  | decodeFailed (raw : String)

/-- Index (from the front) of the last occurrence of `c`, if any. -/
def lastIdxOf (c : Char) : List Char → Option Nat
  | [] => none
  | x :: xs =>
    match lastIdxOf c xs with
    | some j => some (j + 1)
    | none => if x = c then some 0 else none

/-- The final component of a POSIX path (`pathlib.PurePath.name`):
everything after the last `/`. -/
def pathName (p : String) : String :=
  match lastIdxOf '/' p.toList with
  | none => p
  | some i => String.mk (p.toList.drop (i + 1))

/-- `pathlib.PurePath.suffix`: with `i` the index of the last `.` of the
name, the substring from `i` when `0 < i < len(name) - 1`, else `""`. -/
def pathSuffix (p : String) : String :=
  let name := (pathName p).toList
  match lastIdxOf '.' name with
  | none => ""
  | some i => if 0 < i ∧ i < name.length - 1 then String.mk (name.drop i) else ""

/-- `str.lower()` restricted to ASCII (the only case the extensions use). -/
def strToLower (s : String) : String :=
  String.mk (s.toList.map Char.toLower)

/-- First binding of key `k` in a parsed JSON object (`d[k]` on a dict). -/
def lookupField : List (String × Json) → String → Option Json
  | [], _ => none
  | (k2, v) :: rest, k => if k2 = k then some v else lookupField rest k

/-- `k in d` on a parsed JSON object. -/
def hasKey (k : String) : List (String × Json) → Bool
  | [] => false
  | (k2, _) :: rest => k2 == k || hasKey k rest

/-- Python `j[k]` with a string key: a `KeyError` on an object lacking the
key, a `TypeError` on any non-object value. -/
def jsonGetItem (j : Json) (k : String) : Except PyError Json :=
  match j with
  | .obj fields =>
    match lookupField fields k with
    | some v => .ok v
    | none => .error (.keyError k)
  | _ => .error .typeError

/-- Python `j == n` for an int literal `n`: true exactly on the number `n`. -/
def Json.isIntEq (j : Json) (n : Int) : Bool :=
  match j with
  | .num m => m == n
  | _ => false

theorem lookupField_some_hasKey {fields : List (String × Json)} {k : String}
    {v : Json} (h : lookupField fields k = some v) : hasKey k fields = true := by
  induction fields with
  | nil => simp [lookupField] at h
  | cons p rest ih =>
    obtain ⟨k2, w⟩ := p
    by_cases hk : k2 = k
    · simp [hasKey, hk]
    · simp only [lookupField, if_neg hk] at h
      simp [hasKey, hk, ih h]

/-- One input message of `chat`: a `{role, content}` dict of strings. -/
structure ChatMsg where
  role : String
  content : String

/-- One content block of the structured (OpenAI wire format) message:
`{"type": "text", "text": s}` or
`{"type": "image_url", "image_url": {"url": url, "detail": detail}}`. -/
inductive ContentBlock where
  | text (s : String)
  | imageUrl (url : String) (detail : String)

/-- A structured message as sent to the completion API:
`{role, content: [blocks]}`. -/
structure FixedMsg where
  role : String
  content : List ContentBlock

/-- The JSON body `LLaVALMM.generate` POSTs to the fixed endpoint; the
`image` field is present only when the `image` argument is truthy, and then
holds the base64 encoding. -/
structure LlavaRequest where
  prompt : String
  image : Option String
  temperature : Rat
  max_new_tokens : Nat

/-- `("statusCode" in resp_json and resp_json["statusCode"] != 200) or
"statusCode" not in resp_json` — the failure condition of
`LLaVALMM.generate`. -/
def llavaStatusBad (respJson : List (String × Json)) : Bool :=
  (hasKey "statusCode" respJson &&
    (match lookupField respJson "statusCode" with
     | some v => !(v.isIntEq 200)
     | none => false)) || !(hasKey "statusCode" respJson)

/-- Response handling of `LLaVALMM.generate`: on a bad status, log and raise
`ValueError(f"Request failed: {resp_json}")`; otherwise return
`resp_json["data"]` (a `KeyError` if the key is absent). -/
def llavaHandleResponse (respJson : List (String × Json)) :
    Except PyError Json × List LogEntry :=
  if llavaStatusBad respJson then
    (.error (.requestFailed respJson), [.requestFailed respJson])
  else
    match lookupField respJson "data" with
    | some v => (.ok v, [])
    | none => (.error (.keyError "data"), [])

/-- The request body `LLaVALMM.generate` builds: `{"prompt": prompt}`, plus
`"image": encode_image(image)` when `image` is truthy (Python's `if image:`
is false on `None` and on the empty string), plus the default
`temperature=0.1` and `max_new_tokens=1500`. -/
def llavaRequest (enc : String → String) (prompt : String)
    (image : Option String) : LlavaRequest :=
  { prompt := prompt
    image := match image with
      | some img => if img = "" then none else some (enc img)
      | none => none
    temperature := 1 / 10
    max_new_tokens := 1500 }

/-- `LLaVALMM.generate`: POST the request body (`net` models the POST and the
`.json()` decoding of the reply), then unwrap the status-coded response. -/
def llavaGenerate (net : LlavaRequest → List (String × Json))
    (enc : String → String) (prompt : String) (image : Option String) :
    Except PyError Json × List LogEntry :=
  llavaHandleResponse (net (llavaRequest enc prompt image))

/-- `LLaVALMM.chat`: unconditionally
`raise NotImplementedError("Chat not supported for LLaVA")`. -/
def llavaChat (_chat : List ChatMsg) (_image : Option String) :
    Except PyError Json × List LogEntry :=
  (.error (.notImplementedError "Chat not supported for LLaVA"), [])

/-- `LLaVALMM.__call__`: a string input goes to `generate`, a message-list
input to `chat`. -/
def llavaCall (net : LlavaRequest → List (String × Json))
    (enc : String → String) (input : String ⊕ List ChatMsg)
    (image : Option String) : Except PyError Json × List LogEntry :=
  match input with
  | .inl s => llavaGenerate net enc s image
  | .inr msgs => llavaChat msgs image

/-- `fixed_chat[0]["content"].append(b)`: an `IndexError` on an empty list,
otherwise the block is appended to the first message's content. -/
def appendToFirst (msgs : List FixedMsg) (b : ContentBlock) :
    Except PyError (List FixedMsg) :=
  match msgs with
  | [] => .error .indexError
  | m :: rest => .ok ({ m with content := m.content ++ [b] } :: rest)

/-- The message list `OpenAILMM.chat` builds before sending: each input
message becomes a single text block; if an image is truthy, its extension is
validated and normalized (`.jpg`/`.jpeg` → `jpg`, `.png` → `png`,
case-insensitively; anything else raises
`ValueError(f"Unsupported image extension: {extension}")`), the file is
base64-encoded, and an image_url block with a low-detail hint is appended to
the first message. -/
def openaiChatRequest (enc : String → String) (chat : List ChatMsg)
    (image : Option String) : Except PyError (List FixedMsg) :=
  let fixedChat : List FixedMsg :=
    chat.map (fun c => { role := c.role, content := [ContentBlock.text c.content] })
  match image with
  | none => .ok fixedChat
  | some img =>
    if img = "" then .ok fixedChat
    else
      let extension := pathSuffix img
      let tagOrErr : Except PyError String :=
        if strToLower extension = ".jpeg" ∨ strToLower extension = ".jpg" then .ok "jpg"
        else if strToLower extension = ".png" then .ok "png"
        else .error (.valueError ("Unsupported image extension: " ++ extension))
      match tagOrErr with
      | .error e => .error e
      | .ok tag =>
        let encoded := enc img
        appendToFirst fixedChat
          (ContentBlock.imageUrl ("data:image/" ++ tag ++ ";base64," ++ encoded) "low")

/-- `OpenAILMM.chat`: build the request, send it and extract
`choices[0].message.content` (modelled by `net`). -/
def openaiChat (net : List FixedMsg → String) (enc : String → String)
    (chat : List ChatMsg) (image : Option String) : Except PyError String :=
  (openaiChatRequest enc chat image).map net

/-- The message list `OpenAILMM.generate` builds: one user message with a
text block for the prompt; if an image is truthy, an image_url block whose
data URI uses the path's raw suffix verbatim — no validation, no
normalization — is appended. -/
def openaiGenerateRequest (enc : String → String) (prompt : String)
    (image : Option String) : Except PyError (List FixedMsg) :=
  let message : List FixedMsg :=
    [{ role := "user", content := [ContentBlock.text prompt] }]
  match image with
  | none => .ok message
  | some img =>
    if img = "" then .ok message
    else
      let extension := pathSuffix img
      let encoded := enc img
      appendToFirst message
        (ContentBlock.imageUrl ("data:image/" ++ extension ++ ";base64," ++ encoded) "low")

/-- `OpenAILMM.generate`: build the request, send it and extract
`choices[0].message.content` (modelled by `net`). -/
def openaiGenerate (net : List FixedMsg → String) (enc : String → String)
    (prompt : String) (image : Option String) : Except PyError String :=
  (openaiGenerateRequest enc prompt image).map net

/-- `OpenAILMM.__call__`: a string input goes to `generate`, a message-list
input to `chat`. -/
def openaiCall (net : List FixedMsg → String) (enc : String → String)
    (input : String ⊕ List ChatMsg) (image : Option String) :
    Except PyError String :=
  match input with
  | .inl s => openaiGenerate net enc s image
  | .inr msgs => openaiChat net enc msgs image

/-- The downstream vision tools the factories bind closures to. -/
inductive Tool where
  | clip
  | groundingDINO
  | groundingSAM

/-- The closure a tool-selector factory returns: it captures the tool and the
parsed `Parameters` value (`params` in the source's lambda). -/
structure ToolClosure where
  tool : Tool
  params : Json

/-- What calling a returned closure does:
`tool()(**{"prompt": params["prompt"], "image": x})` — invoke the tool with
exactly the two keyword arguments. -/
structure ToolInvocation where
  tool : Tool
  kwargs : List (String × Json)

/-- Calling a factory closure on `x`: evaluate `params["prompt"]` (which can
itself raise) and invoke the captured tool with kwargs `prompt` and `image`. -/
def invokeClosure (c : ToolClosure) (x : Json) : Except PyError ToolInvocation :=
  match jsonGetItem c.params "prompt" with
  | .ok pv => .ok { tool := c.tool, kwargs := [("prompt", pv), ("image", x)] }
  | .error e => .error e

/-- Shared tail of `generate_classifier` / `generate_detector` /
`generate_segmentor`, applied to the model's raw response text and the
outcome of `json.loads` on it (`none` = `json.JSONDecodeError`).  Only the
decode error is caught (logging the raw text, then
`raise ValueError("Failed to decode response")`); the subsequent
`[\x22Parameters\x22]` subscript is outside the `except` clause, so a missing
key (`KeyError`) or a non-object parse (`TypeError`) propagates uncaught and
unlogged. -/
def toolSelectorFactory (tool : Tool) (raw : String) (parsed : Option Json) :
    Except PyError ToolClosure × List LogEntry :=
  match parsed with
  | none => (.error (.valueError "Failed to decode response"), [.decodeFailed raw])
  | some j =>
    match jsonGetItem j "Parameters" with
    | .ok params => (.ok { tool := tool, params := params }, [])
    | .error e => (.error e, [])

/-- `OpenAILMM.generate_classifier`, from the model response onward. -/
def generate_classifier (raw : String) (parsed : Option Json) :
    Except PyError ToolClosure × List LogEntry :=
  toolSelectorFactory Tool.clip raw parsed

/-- `OpenAILMM.generate_detector`, from the model response onward. -/
def generate_detector (raw : String) (parsed : Option Json) :
    Except PyError ToolClosure × List LogEntry :=
  toolSelectorFactory Tool.groundingDINO raw parsed

/-- `OpenAILMM.generate_segmentor`, from the model response onward. -/
def generate_segmentor (raw : String) (parsed : Option Json) :
    Except PyError ToolClosure × List LogEntry :=
  toolSelectorFactory Tool.groundingSAM raw parsed

/-- A constructed client instance, with the configuration its `__init__`
stored (`kwargs` of `OpenAILMM` are passthrough and omitted). -/
inductive LMMClient where
  | openaiLMM (modelName : String) (maxTokens : Nat)
  | llavaLMM (modelName : String)

/-- `OpenAILMM.__init__`: `model_name` defaults to `"gpt-4-vision-preview"`,
`max_tokens` to 1024; `none` stands for an omitted argument. -/
def OpenAILMM_mk (modelName : Option String) (maxTokens : Option Nat) : LMMClient :=
  .openaiLMM (modelName.getD "gpt-4-vision-preview") (maxTokens.getD 1024)

/-- `LLaVALMM.__init__`: stores the given model name. -/
def LLaVALMM_mk (modelName : String) : LMMClient :=
  .llavaLMM modelName

/-- `get_lmm`: `"openai"` → `OpenAILMM(name)`, `"llava"` → `LLaVALMM(name)`,
otherwise `raise ValueError(f"Unknown LMM: {name}, current support openai,
llava")`. -/
def get_lmm (name : String) : Except PyError LMMClient :=
  if name = "openai" then .ok (OpenAILMM_mk (some name) none)
  else if name = "llava" then .ok (LLaVALMM_mk name)
  else .error (.valueError ("Unknown LMM: " ++ name ++ ", current support openai, llava"))

example : pathSuffix "img.png" = ".png" := rfl
example : pathSuffix "a/b/archive.tar.gz" = ".gz" := rfl
example : pathSuffix "img" = "" := rfl
example : pathSuffix ".bashrc" = "" := rfl
example : pathSuffix "file." = "" := rfl
example : pathSuffix "IMG.PNG" = ".PNG" := rfl

/-- C1 (counterexample): a model response whose text `"{}"` parses to a JSON
object lacking a `Parameters` key makes `generate_classifier` raise an
uncaught `KeyError` — a different error from the
`ValueError("Failed to decode response")` the claim requires — and it logs
nothing, contradicting "logs the raw response text before raising". -/
theorem generate_classifier_missing_parameters_counterexample :
    generate_classifier "\x7b\x7d" (some (Json.obj [])) =
      (Except.error (PyError.keyError "Parameters"), ([] : List LogEntry)) ∧
    PyError.keyError "Parameters" ≠ PyError.valueError "Failed to decode response" := by
  refine ⟨rfl, fun h => ?_⟩
  exact PyError.noConfusion h

/-- C1 (amended): in every tool-selector factory, a response text that is not
valid JSON is logged (raw) and turned into `ValueError("Failed to decode
response")`; but a response that parses while its `["Parameters"]` subscript
fails (a `KeyError` on an object lacking the key, a `TypeError` on a
non-object) propagates that error uncaught and unlogged, since only
`json.JSONDecodeError` is caught. -/
theorem toolSelectorFactory_error_paths (raw : String) (j : Json) (e : PyError)
    (hj : jsonGetItem j "Parameters" = .error e) :
    generate_classifier raw none =
      (.error (.valueError "Failed to decode response"), [.decodeFailed raw]) ∧
    generate_detector raw none =
      (.error (.valueError "Failed to decode response"), [.decodeFailed raw]) ∧
    generate_segmentor raw none =
      (.error (.valueError "Failed to decode response"), [.decodeFailed raw]) ∧
    generate_classifier raw (some j) = (.error e, []) ∧
    generate_detector raw (some j) = (.error e, []) ∧
    generate_segmentor raw (some j) = (.error e, []) := by
  refine ⟨rfl, rfl, rfl, ?_, ?_, ?_⟩ <;>
    simp [generate_classifier, generate_detector, generate_segmentor,
      toolSelectorFactory, hj]

theorem toolSelectorFactory_error_paths_witness :
    generate_classifier "oops" (some (Json.obj [])) =
      (.error (.keyError "Parameters"), ([] : List LogEntry)) ∧
    generate_detector "oops" none =
      (.error (.valueError "Failed to decode response"), [.decodeFailed "oops"]) := by
  have h := toolSelectorFactory_error_paths "oops" (Json.obj [])
    (.keyError "Parameters") rfl
  exact ⟨h.2.2.2.1, h.2.1⟩

/-- C2: `LLaVALMM.generate` post-processes the endpoint's JSON response as
`llavaHandleResponse` of the network result; a response missing `statusCode`,
or whose `statusCode` is not the number 200, is logged and raised as a
request-failure `ValueError` carrying the response body; a response with
`statusCode` 200 returns its `data` field. -/
theorem llava_generate_status_handling
    (net : LlavaRequest → List (String × Json)) (enc : String → String)
    (prompt : String) (image : Option String) (resp : List (String × Json)) :
    llavaGenerate net enc prompt image =
      llavaHandleResponse (net (llavaRequest enc prompt image)) ∧
    (hasKey "statusCode" resp = false →
      llavaHandleResponse resp =
        (.error (.requestFailed resp), [.requestFailed resp])) ∧
    (∀ v, lookupField resp "statusCode" = some v → Json.isIntEq v 200 = false →
      llavaHandleResponse resp =
        (.error (.requestFailed resp), [.requestFailed resp])) ∧
    (∀ d, lookupField resp "statusCode" = some (Json.num 200) →
      lookupField resp "data" = some d →
      llavaHandleResponse resp = (.ok d, [])) := by
  refine ⟨rfl, ?_, ?_, ?_⟩
  · intro h
    simp [llavaHandleResponse, llavaStatusBad, h]
  · intro v hv h200
    have hk := lookupField_some_hasKey hv
    simp [llavaHandleResponse, llavaStatusBad, hk, hv, h200]
  · intro d hv hd
    have hk := lookupField_some_hasKey hv
    simp [llavaHandleResponse, llavaStatusBad, hk, hv, hd, Json.isIntEq]

theorem llava_generate_status_handling_witness :
    llavaGenerate (fun _ => [("statusCode", Json.num 200), ("data", Json.str "X")])
      (fun _ => "") "p" none = (.ok (Json.str "X"), []) := by
  have h := llava_generate_status_handling
    (fun _ => [("statusCode", Json.num 200), ("data", Json.str "X")])
    (fun _ => "") "p" none
    [("statusCode", Json.num 200), ("data", Json.str "X")]
  rw [h.1]
  exact h.2.2.2 (Json.str "X") rfl rfl

/-- C3: in `OpenAILMM.chat` with a (truthy) image path, a suffix whose
lowercasing is `.jpg`/`.jpeg` yields the media tag `jpg` and one whose
lowercasing is `.png` yields `png` in the appended data URI; any other suffix
raises the unsupported-extension `ValueError` — for every message list and
independently of the network (`net` does not appear in the error result), so
before any network call. -/
theorem openaiChat_extension_validation
    (net : List FixedMsg → String) (enc : String → String)
    (m : ChatMsg) (rest msgs : List ChatMsg) (img : String) (himg : img ≠ "") :
    (strToLower (pathSuffix img) = ".jpeg" ∨ strToLower (pathSuffix img) = ".jpg" →
      openaiChatRequest enc (m :: rest) (some img) =
        .ok ({ role := m.role,
               content := [ContentBlock.text m.content,
                 ContentBlock.imageUrl ("data:image/jpg;base64," ++ enc img) "low"] } ::
             rest.map (fun c => { role := c.role, content := [ContentBlock.text c.content] }))) ∧
    (strToLower (pathSuffix img) = ".png" →
      openaiChatRequest enc (m :: rest) (some img) =
        .ok ({ role := m.role,
               content := [ContentBlock.text m.content,
                 ContentBlock.imageUrl ("data:image/png;base64," ++ enc img) "low"] } ::
             rest.map (fun c => { role := c.role, content := [ContentBlock.text c.content] }))) ∧
    (strToLower (pathSuffix img) ≠ ".jpeg" → strToLower (pathSuffix img) ≠ ".jpg" →
      strToLower (pathSuffix img) ≠ ".png" →
      openaiChat net enc msgs (some img) =
        .error (.valueError ("Unsupported image extension: " ++ pathSuffix img))) := by
  refine ⟨?_, ?_, ?_⟩
  · rintro (h | h) <;> simp [openaiChatRequest, himg, h, appendToFirst]
  · intro h
    simp [openaiChatRequest, himg, h, appendToFirst]
  · intro h1 h2 h3
    simp [openaiChat, openaiChatRequest, himg, h1, h2, h3, Except.map]

theorem openaiChat_extension_validation_witness :
    openaiChatRequest (fun _ => "ENC")
      [{ role := "user", content := "hi" }] (some "photo.JPEG") =
      .ok [{ role := "user", content := [ContentBlock.text "hi",
        ContentBlock.imageUrl "data:image/jpg;base64,ENC" "low"] }] ∧
    openaiChat (fun _ => "RESP") (fun _ => "ENC") [] (some "img.gif") =
      .error (.valueError "Unsupported image extension: .gif") := by
  have h1 := openaiChat_extension_validation (fun _ => "RESP") (fun _ => "ENC")
    { role := "user", content := "hi" } [] [] "photo.JPEG" (by decide)
  have h2 := openaiChat_extension_validation (fun _ => "RESP") (fun _ => "ENC")
    { role := "user", content := "hi" } [] [] "img.gif" (by decide)
  exact ⟨h1.1 (Or.inl (by decide)), h2.2.2 (by decide) (by decide) (by decide)⟩

/-- C4: `OpenAILMM.generate` with a (truthy) image performs no extension
validation or normalization: the raw `Path(image).suffix`, leading dot
included, appears verbatim as the media tag of the data URI, and the built
request is `.ok` for every image argument (so no unsupported-extension error
is ever raised). -/
theorem openaiGenerate_raw_suffix (enc : String → String) (prompt img : String)
    (himg : img ≠ "") :
    openaiGenerateRequest enc prompt (some img) =
      .ok [{ role := "user",
             content := [ContentBlock.text prompt,
               ContentBlock.imageUrl
                 ("data:image/" ++ pathSuffix img ++ ";base64," ++ enc img) "low"] }] ∧
    (∀ image : Option String,
      (openaiGenerateRequest enc prompt image).isOk = true) := by
  constructor
  · simp [openaiGenerateRequest, himg, appendToFirst]
  · intro image
    match image with
    | none => rfl
    | some i =>
      by_cases hi : i = "" <;>
        simp [openaiGenerateRequest, hi, appendToFirst, Except.isOk, Except.toBool]

theorem openaiGenerate_raw_suffix_witness :
    openaiGenerateRequest (fun _ => "ENC") "p" (some "img.png") =
      .ok [{ role := "user", content := [ContentBlock.text "p",
        ContentBlock.imageUrl "data:image/.png;base64,ENC" "low"] }] :=
  (openaiGenerate_raw_suffix (fun _ => "ENC") "p" "img.png" (by decide)).1

/-- C5: each tool-selector factory, on a model response parsing to
`{"Parameters": {"prompt": "cat"}}`, returns (without logging) a closure
bound to its tool with those parameters, and calling that closure on any
image argument `x` invokes the tool with exactly the keyword arguments
`prompt = "cat"` and `image = x`. -/
theorem tool_selector_closure_invocation (raw : String) (x : Json) :
    generate_classifier raw
        (some (Json.obj [("Parameters", Json.obj [("prompt", Json.str "cat")])])) =
      (.ok { tool := Tool.clip, params := Json.obj [("prompt", Json.str "cat")] }, []) ∧
    invokeClosure { tool := Tool.clip, params := Json.obj [("prompt", Json.str "cat")] } x =
      .ok { tool := Tool.clip, kwargs := [("prompt", Json.str "cat"), ("image", x)] } ∧
    generate_detector raw
        (some (Json.obj [("Parameters", Json.obj [("prompt", Json.str "cat")])])) =
      (.ok { tool := Tool.groundingDINO, params := Json.obj [("prompt", Json.str "cat")] }, []) ∧
    invokeClosure { tool := Tool.groundingDINO, params := Json.obj [("prompt", Json.str "cat")] } x =
      .ok { tool := Tool.groundingDINO, kwargs := [("prompt", Json.str "cat"), ("image", x)] } ∧
    generate_segmentor raw
        (some (Json.obj [("Parameters", Json.obj [("prompt", Json.str "cat")])])) =
      (.ok { tool := Tool.groundingSAM, params := Json.obj [("prompt", Json.str "cat")] }, []) ∧
    invokeClosure { tool := Tool.groundingSAM, params := Json.obj [("prompt", Json.str "cat")] } x =
      .ok { tool := Tool.groundingSAM, kwargs := [("prompt", Json.str "cat"), ("image", x)] } :=
  ⟨rfl, rfl, rfl, rfl, rfl, rfl⟩

/-- C6: `get_lmm` maps `"openai"` to an `OpenAILMM` instance and `"llava"` to
an `LLaVALMM` instance (whose `generate`, `chat` and `__call__` are the
`openai*`/`llava*` operations of this file), and any other name raises a
`ValueError` whose message names the supported set `openai, llava`. -/
theorem get_lmm_dispatch (name : String)
    (h1 : name ≠ "openai") (h2 : name ≠ "llava") :
    get_lmm "openai" = .ok (LMMClient.openaiLMM "openai" 1024) ∧
    get_lmm "llava" = .ok (LMMClient.llavaLMM "llava") ∧
    get_lmm name =
      .error (.valueError ("Unknown LMM: " ++ name ++ ", current support openai, llava")) := by
  refine ⟨rfl, rfl, ?_⟩
  simp [get_lmm, h1, h2]

theorem get_lmm_dispatch_witness :
    get_lmm "claude" =
      .error (.valueError "Unknown LMM: claude, current support openai, llava") :=
  (get_lmm_dispatch "claude" (by decide) (by decide)).2.2

/-- C7: for both client variants and every optional image, the unified
`__call__` on a string input equals `generate` on that string, and on a
message-list input equals `chat` on that list. -/
theorem unified_call_dispatch
    (onet : List FixedMsg → String) (lnet : LlavaRequest → List (String × Json))
    (enc : String → String) (s : String) (msgs : List ChatMsg)
    (image : Option String) :
    openaiCall onet enc (.inl s) image = openaiGenerate onet enc s image ∧
    openaiCall onet enc (.inr msgs) image = openaiChat onet enc msgs image ∧
    llavaCall lnet enc (.inl s) image = llavaGenerate lnet enc s image ∧
    llavaCall lnet enc (.inr msgs) image = llavaChat msgs image :=
  ⟨rfl, rfl, rfl, rfl⟩

/-- C8: for a non-empty message list with a supported (truthy) image, the
built request appends the image_url block (tag `jpg` or `png`, low detail) to
the first message only, every later message keeping exactly its single text
block; with no image, every message carries only its text block. -/
theorem openaiChat_image_first_message_only
    (enc : String → String) (m : ChatMsg) (rest : List ChatMsg) (img : String)
    (himg : img ≠ "")
    (hext : strToLower (pathSuffix img) = ".jpeg" ∨ strToLower (pathSuffix img) = ".jpg" ∨
            strToLower (pathSuffix img) = ".png") :
    (∃ tag, (tag = "jpg" ∨ tag = "png") ∧
      openaiChatRequest enc (m :: rest) (some img) =
        .ok ({ role := m.role,
               content := [ContentBlock.text m.content,
                 ContentBlock.imageUrl ("data:image/" ++ tag ++ ";base64," ++ enc img) "low"] } ::
             rest.map (fun c => { role := c.role, content := [ContentBlock.text c.content] }))) ∧
    (∀ msgs : List ChatMsg, openaiChatRequest enc msgs none =
      .ok (msgs.map (fun c => { role := c.role, content := [ContentBlock.text c.content] }))) := by
  constructor
  · rcases hext with h | h | h
    · exact ⟨"jpg", Or.inl rfl, by simp [openaiChatRequest, himg, h, appendToFirst]⟩
    · exact ⟨"jpg", Or.inl rfl, by simp [openaiChatRequest, himg, h, appendToFirst]⟩
    · exact ⟨"png", Or.inr rfl, by simp [openaiChatRequest, himg, h, appendToFirst]⟩
  · intro msgs
    rfl

theorem openaiChat_image_first_message_only_witness :
    (∃ tag, (tag = "jpg" ∨ tag = "png") ∧
      openaiChatRequest (fun _ => "ENC")
        [{ role := "user", content := "a" }, { role := "assistant", content := "b" }]
        (some "img.png") =
        .ok [{ role := "user",
               content := [ContentBlock.text "a",
                 ContentBlock.imageUrl ("data:image/" ++ tag ++ ";base64," ++ "ENC") "low"] },
             { role := "assistant", content := [ContentBlock.text "b"] }]) :=
  (openaiChat_image_first_message_only (fun _ => "ENC")
    { role := "user", content := "a" } [{ role := "assistant", content := "b" }]
    "img.png" (by decide) (Or.inr (Or.inr (by decide)))).1

/-- C9: `get_lmm "openai"` passes the backend name through as the model name
(`OpenAILMM("openai")`), so the constructed client's model name is `"openai"`
and not the `__init__` default `"gpt-4-vision-preview"`, which applies only
when `OpenAILMM` is constructed with the model-name argument omitted. -/
theorem get_lmm_openai_model_name :
    get_lmm "openai" = .ok (LMMClient.openaiLMM "openai" 1024) ∧
    OpenAILMM_mk none none = LMMClient.openaiLMM "gpt-4-vision-preview" 1024 ∧
    "openai" ≠ "gpt-4-vision-preview" :=
  ⟨rfl, rfl, by decide⟩

/-- C10: `OpenAILMM.chat` on the empty message list with a supported (truthy)
image fails with an `IndexError` from the unguarded `fixed_chat[0]` — not one
of the documented errors — independently of the network; on any non-empty
message list with the same image the request builds successfully. -/
theorem openaiChat_empty_chat_index_error
    (net : List FixedMsg → String) (enc : String → String) (img : String)
    (himg : img ≠ "")
    (hext : strToLower (pathSuffix img) = ".jpeg" ∨ strToLower (pathSuffix img) = ".jpg" ∨
            strToLower (pathSuffix img) = ".png") :
    openaiChat net enc [] (some img) = .error .indexError ∧
    (∀ (m : ChatMsg) (rest : List ChatMsg),
      (openaiChatRequest enc (m :: rest) (some img)).isOk = true) := by
  constructor
  · rcases hext with h | h | h <;>
      simp [openaiChat, openaiChatRequest, himg, h, appendToFirst, Except.map]
  · intro m rest
    rcases hext with h | h | h <;>
      simp [openaiChatRequest, himg, h, appendToFirst, Except.isOk, Except.toBool]

theorem openaiChat_empty_chat_index_error_witness :
    openaiChat (fun _ => "RESP") (fun _ => "ENC") [] (some "img.png") =
      .error .indexError :=
  (openaiChat_empty_chat_index_error (fun _ => "RESP") (fun _ => "ENC") "img.png"
    (by decide) (Or.inr (Or.inr (by decide)))).1
